import Mathlib

/-!
Verification of the CloudWatch Logs token-chained state machine
(`src/sinks/aws_cloudwatch_logs/request.rs`).

The Rust code drives one batch of log events through up to three remote
operations (describe-stream, create-stream, put-events) and hands the
resulting sequence token to a one-shot channel.  We embed the data model
and the `poll` loop shallowly: each remote call is answered by an
environment oracle (`Env`) that fixes the result each operation resolves
to; `poll` then runs the loop to its terminal outcome, recording every
remote call it issues.  Rust panics (`expect`, `unwrap`) are modelled by
an explicit `Outcome.panic` constructor carrying the panic message.
-/

namespace Cloudwatch

/-- `rusoto_logs::InputLogEvent` (fields used: timestamp, message). -/
structure InputLogEvent where
  timestamp : Int
  message : String
deriving DecidableEq, Repr

/-- The fields of `rusoto_logs::LogStream` read by the code:
the stream's name and its last upload sequence token. -/
structure LogStream where
  log_stream_name : Option String
  upload_sequence_token : Option String
deriving DecidableEq, Repr

/-- `rusoto_logs::DescribeLogStreamsResponse`, restricted to the one field
the code reads: `log_streams`, an optional list of streams. -/
structure DescribeLogStreamsResponse where
  log_streams : Option (List LogStream)
deriving DecidableEq, Repr

/-- `rusoto_logs::PutLogEventsResponse`, restricted to the one field the
code reads: `next_sequence_token`. -/
structure PutLogEventsResponse where
  next_sequence_token : Option String
deriving DecidableEq, Repr

/-- `rusoto_logs::PutLogEventsRequest` as constructed by `Client::put_logs`. -/
structure PutLogEventsRequest where
  log_events : List InputLogEvent
  sequence_token : Option String
  log_group_name : String
  log_stream_name : String
deriving DecidableEq, Repr

/-- The fields of `rusoto_logs::DescribeLogStreamsRequest` that
`Client::describe_stream` sets (the rest stay at their defaults). -/
structure DescribeLogStreamsRequest where
  limit : Option Int
  log_group_name : String
  log_stream_name_prefix : Option String
deriving DecidableEq, Repr

/-- `rusoto_logs::CreateLogStreamRequest` as constructed by
`Client::create_log_stream`. -/
structure CreateLogStreamRequest where
  log_group_name : String
  log_stream_name : String
deriving DecidableEq, Repr

/-- `CloudwatchError` as used in `request.rs` (`Describe`, `CreateStream`,
`Put`, `NoStreamsFound`); the opaque rusoto error causes are strings. -/
inductive CloudwatchError where
  | Describe (cause : String)
  | CreateStream (cause : String)
  | Put (cause : String)
  | NoStreamsFound
deriving DecidableEq, Repr

/-- The `Client` adapter struct: stream and group identity.  (The inner
`CloudWatchLogsClient` transport handle is opaque; its behaviour is the
environment oracle `Env` below.) -/
structure Client where
  stream_name : String
  group_name : String
deriving DecidableEq, Repr

/-- `Client::put_logs`: constructs the append request carrying the full
batch and the given sequence token. -/
def Client.put_logs (c : Client) (sequence_token : Option String)
    (log_events : List InputLogEvent) : PutLogEventsRequest :=
  { log_events := log_events
    sequence_token := sequence_token
    log_group_name := c.group_name
    log_stream_name := c.stream_name }

/-- `Client::describe_stream`: requests up to one stream matching the
stream name as a prefix, within the configured group. -/
def Client.describe_stream (c : Client) : DescribeLogStreamsRequest :=
  { limit := some 1
    log_group_name := c.group_name
    log_stream_name_prefix := some c.stream_name }

/-- `Client::create_log_stream`: create request for the exact identity. -/
def Client.create_log_stream (c : Client) : CreateLogStreamRequest :=
  { log_group_name := c.group_name
    log_stream_name := c.stream_name }

/-- The `State` enum: each variant carries the pending remote operation's
request (the in-flight `RusotoFuture` is identified by the request it was
built from; the environment decides what it resolves to). -/
inductive State where
  | CreateStream (fut : CreateLogStreamRequest)
  | DescribeStream (fut : DescribeLogStreamsRequest)
  | Put (fut : PutLogEventsRequest)
deriving DecidableEq, Repr

/-- The `CloudwatchFuture` struct.  `token_tx : Option Unit` models the
`Option<oneshot::Sender<Option<String>>>` slot: `some ()` while the
one-shot sender is still held, `none` after it has been taken. -/
structure CloudwatchFuture where
  client : Client
  state : State
  events : Option (List InputLogEvent)
  token_tx : Option Unit
deriving DecidableEq, Repr

/-- `CloudwatchFuture::new`: with a token, go straight to `Put` carrying
the batch; without one, retain the batch and start with describe. -/
def CloudwatchFuture.new (stream_name group_name : String)
    (events : List InputLogEvent) (token : Option String) : CloudwatchFuture :=
  let client : Client := { stream_name := stream_name, group_name := group_name }
  match token with
  | some t =>
      let fut := client.put_logs (some t) events
      { client := client
        events := none
        state := State.Put fut
        token_tx := some () }
  | none =>
      let fut := client.describe_stream
      { client := client
        events := some events
        state := State.DescribeStream fut
        token_tx := some () }

/-- `CloudwatchFuture::transition_to_put`: take the retained batch
(`self.events.take().expect(...)` — taking an empty slot is a panic,
modelled as `.error` carrying the panic message) and move to the `Put`
state with a freshly issued append call. -/
def CloudwatchFuture.transition_to_put (f : CloudwatchFuture)
    (token : Option String) : Except String CloudwatchFuture :=
  match f.events with
  | none => Except.error "Put got called twice, this is a bug!"
  | some events =>
      Except.ok { f with
        events := none
        state := State.Put (f.client.put_logs token events) }

/-- A remote call issued by the machine, with the request it carried. -/
inductive RemoteCall where
  | describe (req : DescribeLogStreamsRequest)
  | create (req : CreateLogStreamRequest)
  | put (req : PutLogEventsRequest)
deriving DecidableEq, Repr

/-- The request pending in a given state, as a remote call record. -/
def stateCall : State → RemoteCall
  | State.CreateStream r => RemoteCall.create r
  | State.DescribeStream r => RemoteCall.describe r
  | State.Put r => RemoteCall.put r

/-- The environment oracle: what each remote operation resolves to once
polled to completion, and whether the receiving end of the one-shot
token channel is still alive when `send` happens.  Error causes are the
opaque rusoto error values, modelled as strings. -/
structure Env where
  describeResult : Except String DescribeLogStreamsResponse
  createResult : Except String Unit
  putResult : Except String PutLogEventsResponse
  sinkConnected : Bool
deriving Repr

/-- How one run of `poll` ends: `ok` is `Ok(Async::Ready(()))`, `err e`
is an `Err` with the classified `CloudwatchError`, `panic msg` is a Rust
panic (a failed `expect`/`unwrap`) with its message. -/
inductive Outcome where
  | ok
  | err (e : CloudwatchError)
  | panic (msg : String)
deriving DecidableEq, Repr

/-- Everything observable about one completed run of the `poll` loop:
its outcome, the value delivered through the one-shot token channel (if
it was signaled), and the remote calls issued inside the loop, in
order.  (The call already pending when the loop starts is accounted for
separately by `CloudwatchFuture.run`.) -/
structure PollOut where
  outcome : Outcome
  sent : Option (Option String)
  issued : List RemoteCall
deriving DecidableEq, Repr

/-- Rank of a state in the loop's one-directional transition order;
every loop iteration strictly decreases it. -/
def stateRank : State → Nat
  | State.DescribeStream _ => 2
  | State.CreateStream _ => 1
  | State.Put _ => 0

/-- `<CloudwatchFuture as Future>::poll`: the `loop { match self.state }`
body.  Each `try_ready!` resolves via the environment oracle; a failing
remote call maps its cause through the matching `CloudwatchError`
constructor and returns.  Terminates because `stateRank` strictly
decreases along every transition. -/
def CloudwatchFuture.poll (f : CloudwatchFuture) (env : Env) : PollOut :=
  match hs : f.state with
  | State.DescribeStream _fut =>
      match env.describeResult with
      | Except.error e => ⟨Outcome.err (CloudwatchError.Describe e), none, []⟩
      | Except.ok response =>
          match response.log_streams with
          | none => ⟨Outcome.err CloudwatchError.NoStreamsFound, none, []⟩
          | some streams =>
              match streams with
              | stream :: _ =>
                  match ht : f.transition_to_put stream.upload_sequence_token with
                  | Except.error msg => ⟨Outcome.panic msg, none, []⟩
                  | Except.ok f2 =>
                      have : stateRank f2.state < stateRank f.state := by
                        have h0 : stateRank f2.state = 0 := by
                          unfold CloudwatchFuture.transition_to_put at ht
                          cases hev : f.events with
                          | none => rw [hev] at ht; exact absurd ht (by simp)
                          | some events =>
                              rw [hev] at ht
                              simp only [Except.ok.injEq] at ht
                              subst ht
                              rfl
                        rw [h0, hs]
                        norm_num [stateRank]
                      let out := f2.poll env
                      ⟨out.outcome, out.sent, stateCall f2.state :: out.issued⟩
              | [] =>
                  let f2 : CloudwatchFuture :=
                    { f with state := State.CreateStream f.client.create_log_stream }
                  have : stateRank f2.state < stateRank f.state := by
                    rw [hs]; norm_num [stateRank]
                  let out := f2.poll env
                  ⟨out.outcome, out.sent, stateCall f2.state :: out.issued⟩
  | State.CreateStream _fut =>
      match env.createResult with
      | Except.error e => ⟨Outcome.err (CloudwatchError.CreateStream e), none, []⟩
      | Except.ok _ =>
          match ht : f.transition_to_put none with
          | Except.error msg => ⟨Outcome.panic msg, none, []⟩
          | Except.ok f2 =>
              have : stateRank f2.state < stateRank f.state := by
                have h0 : stateRank f2.state = 0 := by
                  unfold CloudwatchFuture.transition_to_put at ht
                  cases hev : f.events with
                  | none => rw [hev] at ht; exact absurd ht (by simp)
                  | some events =>
                      rw [hev] at ht
                      simp only [Except.ok.injEq] at ht
                      subst ht
                      rfl
                rw [h0, hs]
                norm_num [stateRank]
              let out := f2.poll env
              ⟨out.outcome, out.sent, stateCall f2.state :: out.issued⟩
  | State.Put _fut =>
      match env.putResult with
      | Except.error e => ⟨Outcome.err (CloudwatchError.Put e), none, []⟩
      | Except.ok res =>
          let next_token := res.next_sequence_token
          match f.token_tx with
          | none => ⟨Outcome.panic "Put returned twice, this is a bug!", none, []⟩
          | some _ =>
              if env.sinkConnected then
                ⟨Outcome.ok, some next_token, []⟩
              else
                ⟨Outcome.panic "called `Result::unwrap()` on an `Err` value", none, []⟩
termination_by stateRank f.state

/-- A full run observed from construction onward: the outcome and
delivery of `poll`, together with every remote call of the run — the one
issued inside `new` (pending in the initial state) followed by those
issued during the loop. -/
def CloudwatchFuture.run (f : CloudwatchFuture) (env : Env) : PollOut :=
  let out := f.poll env
  ⟨out.outcome, out.sent, stateCall f.state :: out.issued⟩

/-- Number of append calls in a call trace. -/
def countPut (calls : List RemoteCall) : Nat :=
  calls.countP (fun c => match c with | RemoteCall.put _ => true | _ => false)

/-- Number of describe calls in a call trace. -/
def countDescribe (calls : List RemoteCall) : Nat :=
  calls.countP (fun c => match c with | RemoteCall.describe _ => true | _ => false)

/-- Number of create calls in a call trace. -/
def countCreate (calls : List RemoteCall) : Nat :=
  calls.countP (fun c => match c with | RemoteCall.create _ => true | _ => false)

end Cloudwatch

namespace Cloudwatch

/-! ### Step lemmas: one `poll` loop iteration per state and resolution -/

/-- Describe resolves to an error: terminate with `Describe`. -/
theorem poll_describe_err (f : CloudwatchFuture) (env : Env)
    (fut : DescribeLogStreamsRequest) (hs : f.state = State.DescribeStream fut)
    (e : String) (hd : env.describeResult = Except.error e) :
    f.poll env = ⟨Outcome.err (CloudwatchError.Describe e), none, []⟩ := by
  obtain ⟨client, st, events, tx⟩ := f
  dsimp only at hs
  subst hs
  rw [CloudwatchFuture.poll.eq_def]
  simp only [hd]

/-- Describe succeeds but the stream-list field is absent: terminate with
`NoStreamsFound`. -/
theorem poll_describe_no_list (f : CloudwatchFuture) (env : Env)
    (fut : DescribeLogStreamsRequest) (hs : f.state = State.DescribeStream fut)
    (resp : DescribeLogStreamsResponse) (hd : env.describeResult = Except.ok resp)
    (hl : resp.log_streams = none) :
    f.poll env = ⟨Outcome.err CloudwatchError.NoStreamsFound, none, []⟩ := by
  obtain ⟨client, st, events, tx⟩ := f
  dsimp only at hs
  subst hs
  rw [CloudwatchFuture.poll.eq_def]
  simp only [hd, hl]

/-- Describe finds a stream and the retained batch is gone: the
`transition_to_put` expect fires. -/
theorem poll_describe_found_panic (f : CloudwatchFuture) (env : Env)
    (fut : DescribeLogStreamsRequest) (hs : f.state = State.DescribeStream fut)
    (resp : DescribeLogStreamsResponse) (hd : env.describeResult = Except.ok resp)
    (stream : LogStream) (tail : List LogStream)
    (hl : resp.log_streams = some (stream :: tail)) (msg : String)
    (ht : f.transition_to_put stream.upload_sequence_token = Except.error msg) :
    f.poll env = ⟨Outcome.panic msg, none, []⟩ := by
  obtain ⟨client, st, events, tx⟩ := f
  dsimp only at hs
  subst hs
  rw [CloudwatchFuture.poll.eq_def]
  simp only [hd, hl]
  split
  · next m heq => rw [ht] at heq; injection heq with h; subst h; rfl
  · next f2 heq => rw [ht] at heq; exact absurd heq (by simp)

/-- Describe finds at least one stream: move to `Put` with its token and
loop. -/
theorem poll_describe_found_step (f : CloudwatchFuture) (env : Env)
    (fut : DescribeLogStreamsRequest) (hs : f.state = State.DescribeStream fut)
    (resp : DescribeLogStreamsResponse) (hd : env.describeResult = Except.ok resp)
    (stream : LogStream) (tail : List LogStream)
    (hl : resp.log_streams = some (stream :: tail)) (f2 : CloudwatchFuture)
    (ht : f.transition_to_put stream.upload_sequence_token = Except.ok f2) :
    f.poll env =
      ⟨(f2.poll env).outcome, (f2.poll env).sent,
        stateCall f2.state :: (f2.poll env).issued⟩ := by
  obtain ⟨client, st, events, tx⟩ := f
  dsimp only at hs
  subst hs
  rw [CloudwatchFuture.poll.eq_def]
  simp only [hd, hl]
  split
  · next m heq => rw [ht] at heq; exact absurd heq (by simp)
  · next f2' heq => rw [ht] at heq; injection heq with h; subst h; rfl

/-- Describe reports an empty stream list: move to `CreateStream` and
loop. -/
theorem poll_describe_empty_step (f : CloudwatchFuture) (env : Env)
    (fut : DescribeLogStreamsRequest) (hs : f.state = State.DescribeStream fut)
    (resp : DescribeLogStreamsResponse) (hd : env.describeResult = Except.ok resp)
    (hl : resp.log_streams = some []) :
    f.poll env =
      ⟨(({ f with state := State.CreateStream f.client.create_log_stream
            } : CloudwatchFuture).poll env).outcome,
       (({ f with state := State.CreateStream f.client.create_log_stream
            } : CloudwatchFuture).poll env).sent,
       RemoteCall.create f.client.create_log_stream ::
         (({ f with state := State.CreateStream f.client.create_log_stream
            } : CloudwatchFuture).poll env).issued⟩ := by
  obtain ⟨client, st, events, tx⟩ := f
  dsimp only at hs
  subst hs
  rw [CloudwatchFuture.poll.eq_def]
  simp only [hd, hl]
  rfl

/-- Create resolves to an error: terminate with `CreateStream`. -/
theorem poll_create_err (f : CloudwatchFuture) (env : Env)
    (fut : CreateLogStreamRequest) (hs : f.state = State.CreateStream fut)
    (e : String) (hc : env.createResult = Except.error e) :
    f.poll env = ⟨Outcome.err (CloudwatchError.CreateStream e), none, []⟩ := by
  obtain ⟨client, st, events, tx⟩ := f
  dsimp only at hs
  subst hs
  rw [CloudwatchFuture.poll.eq_def]
  simp only [hc]

/-- Create succeeds but the retained batch is gone: the
`transition_to_put` expect fires. -/
theorem poll_create_panic (f : CloudwatchFuture) (env : Env)
    (fut : CreateLogStreamRequest) (hs : f.state = State.CreateStream fut)
    (hc : env.createResult = Except.ok ()) (msg : String)
    (ht : f.transition_to_put none = Except.error msg) :
    f.poll env = ⟨Outcome.panic msg, none, []⟩ := by
  obtain ⟨client, st, events, tx⟩ := f
  dsimp only at hs
  subst hs
  rw [CloudwatchFuture.poll.eq_def]
  simp only [hc]
  split
  · next m heq => rw [ht] at heq; injection heq with h; subst h; rfl
  · next f2 heq => rw [ht] at heq; exact absurd heq (by simp)

/-- Create succeeds: move to `Put` with an absent token and loop. -/
theorem poll_create_step (f : CloudwatchFuture) (env : Env)
    (fut : CreateLogStreamRequest) (hs : f.state = State.CreateStream fut)
    (hc : env.createResult = Except.ok ()) (f2 : CloudwatchFuture)
    (ht : f.transition_to_put none = Except.ok f2) :
    f.poll env =
      ⟨(f2.poll env).outcome, (f2.poll env).sent,
        stateCall f2.state :: (f2.poll env).issued⟩ := by
  obtain ⟨client, st, events, tx⟩ := f
  dsimp only at hs
  subst hs
  rw [CloudwatchFuture.poll.eq_def]
  simp only [hc]
  split
  · next m heq => rw [ht] at heq; exact absurd heq (by simp)
  · next f2' heq => rw [ht] at heq; injection heq with h; subst h; rfl

/-- Put resolves to an error: terminate with `Put`. -/
theorem poll_put_err (f : CloudwatchFuture) (env : Env)
    (fut : PutLogEventsRequest) (hs : f.state = State.Put fut)
    (e : String) (hp : env.putResult = Except.error e) :
    f.poll env = ⟨Outcome.err (CloudwatchError.Put e), none, []⟩ := by
  obtain ⟨client, st, events, tx⟩ := f
  dsimp only at hs
  subst hs
  rw [CloudwatchFuture.poll.eq_def]
  simp only [hp]

/-- Put succeeds but the one-shot sender was already taken: the
`token_tx.take().expect(...)` fires. -/
theorem poll_put_taken_panic (f : CloudwatchFuture) (env : Env)
    (fut : PutLogEventsRequest) (hs : f.state = State.Put fut)
    (res : PutLogEventsResponse) (hp : env.putResult = Except.ok res)
    (htx : f.token_tx = none) :
    f.poll env = ⟨Outcome.panic "Put returned twice, this is a bug!", none, []⟩ := by
  obtain ⟨client, st, events, tx⟩ := f
  dsimp only at hs htx
  subst hs
  subst htx
  rw [CloudwatchFuture.poll.eq_def]
  simp only [hp]

/-- Put succeeds with the sender held and the receiver alive: deliver the
response's next token and terminate successfully. -/
theorem poll_put_ok (f : CloudwatchFuture) (env : Env)
    (fut : PutLogEventsRequest) (hs : f.state = State.Put fut)
    (res : PutLogEventsResponse) (hp : env.putResult = Except.ok res)
    (htx : f.token_tx = some ()) (hsink : env.sinkConnected = true) :
    f.poll env = ⟨Outcome.ok, some res.next_sequence_token, []⟩ := by
  obtain ⟨client, st, events, tx⟩ := f
  dsimp only at hs htx
  subst hs
  subst htx
  rw [CloudwatchFuture.poll.eq_def]
  simp only [hp, hsink, if_true]

/-- Put succeeds but the receiving end of the one-shot channel was
dropped: `send(..).unwrap()` fires. -/
theorem poll_put_disconnected (f : CloudwatchFuture) (env : Env)
    (fut : PutLogEventsRequest) (hs : f.state = State.Put fut)
    (res : PutLogEventsResponse) (hp : env.putResult = Except.ok res)
    (htx : f.token_tx = some ()) (hsink : env.sinkConnected = false) :
    f.poll env =
      ⟨Outcome.panic "called `Result::unwrap()` on an `Err` value", none, []⟩ := by
  obtain ⟨client, st, events, tx⟩ := f
  dsimp only at hs htx
  subst hs
  subst htx
  rw [CloudwatchFuture.poll.eq_def]
  simp [hp, hsink]

end Cloudwatch

namespace Cloudwatch

/-- Taking the retained batch succeeds exactly when it is still present. -/
theorem transition_to_put_some (f : CloudwatchFuture) (ev : List InputLogEvent)
    (he : f.events = some ev) (token : Option String) :
    f.transition_to_put token =
      Except.ok { f with
        events := none
        state := State.Put (f.client.put_logs token ev) } := by
  simp only [CloudwatchFuture.transition_to_put, he]

/-- Taking the retained batch from an empty slot is the expect panic. -/
theorem transition_to_put_twice (f : CloudwatchFuture)
    (he : f.events = none) (token : Option String) :
    f.transition_to_put token =
      Except.error "Put got called twice, this is a bug!" := by
  simp only [CloudwatchFuture.transition_to_put, he]

/-- Helper: across every poll of every future, the one-shot token channel
is signaled (a value was sent) exactly when the outcome is terminal
success. -/
theorem poll_sent_iff_ok (f : CloudwatchFuture) (env : Env) :
    (f.poll env).sent ≠ none ↔ (f.poll env).outcome = Outcome.ok := by
  induction f, env using CloudwatchFuture.poll.induct with
  | case1 f env fut hs e hd =>
      rw [poll_describe_err f env fut hs e hd]; simp
  | case2 f env fut hs resp hd hl =>
      rw [poll_describe_no_list f env fut hs resp hd hl]; simp
  | case3 f env fut hs resp hd stream tail msg ht hl =>
      rw [poll_describe_found_panic f env fut hs resp hd stream tail hl msg ht]
      simp
  | case4 f env fut hs resp hd stream tail f2 ht hrank hl ih =>
      rw [poll_describe_found_step f env fut hs resp hd stream tail hl f2 ht]
      exact ih
  | case5 f env fut hs resp hd f2 hrank hl ih =>
      rw [poll_describe_empty_step f env fut hs resp hd hl]
      exact ih
  | case6 f env fut hs e hc =>
      rw [poll_create_err f env fut hs e hc]; simp
  | case7 f env fut hs a hc msg ht =>
      rw [poll_create_panic f env fut hs hc msg ht]; simp
  | case8 f env fut hs a hc f2 ht hrank ih =>
      rw [poll_create_step f env fut hs hc f2 ht]
      exact ih
  | case9 f env fut hs e hp =>
      rw [poll_put_err f env fut hs e hp]; simp
  | case10 f env fut hs res hp htx =>
      rw [poll_put_taken_panic f env fut hs res hp htx]; simp
  | case11 f env fut hs res hp val htx hsink =>
      rw [poll_put_ok f env fut hs res hp htx hsink]; simp
  | case12 f env fut hs res hp val htx hsink =>
      rw [poll_put_disconnected f env fut hs res hp htx
        (Bool.not_eq_true env.sinkConnected ▸ hsink)]
      simp

end Cloudwatch

namespace Cloudwatch

/-- Helper: complete characterization of a run that starts in the `Put`
state holding no batch and the one-shot sender (the shape `new` builds
when a token is supplied). -/
theorem run_put_eq (c : Client) (preq : PutLogEventsRequest) (env : Env) :
    (CloudwatchFuture.mk c (State.Put preq) none (some ())).run env =
      match env.putResult with
      | Except.error e =>
          ⟨Outcome.err (CloudwatchError.Put e), none, [RemoteCall.put preq]⟩
      | Except.ok res =>
          if env.sinkConnected then
            ⟨Outcome.ok, some res.next_sequence_token, [RemoteCall.put preq]⟩
          else
            ⟨Outcome.panic "called `Result::unwrap()` on an `Err` value", none,
              [RemoteCall.put preq]⟩ := by
  rcases hp : env.putResult with e | res
  · rw [CloudwatchFuture.run, poll_put_err _ env preq rfl e hp]
    simp [stateCall]
  · cases hsink : env.sinkConnected
    · rw [CloudwatchFuture.run, poll_put_disconnected _ env preq rfl res hp rfl hsink]
      simp [stateCall]
    · rw [CloudwatchFuture.run, poll_put_ok _ env preq rfl res hp rfl hsink]
      simp [stateCall]

/-- Helper: complete characterization of a run that starts in the
`DescribeStream` state with the batch retained and the one-shot sender
held (the shape `new` builds when no token is supplied). -/
theorem run_describe_eq (c : Client) (dreq : DescribeLogStreamsRequest)
    (ev : List InputLogEvent) (env : Env) :
    (CloudwatchFuture.mk c (State.DescribeStream dreq) (some ev) (some ())).run env =
      match env.describeResult with
      | Except.error e =>
          ⟨Outcome.err (CloudwatchError.Describe e), none, [RemoteCall.describe dreq]⟩
      | Except.ok resp =>
        match resp.log_streams with
        | none =>
            ⟨Outcome.err CloudwatchError.NoStreamsFound, none, [RemoteCall.describe dreq]⟩
        | some [] =>
          match env.createResult with
          | Except.error e =>
              ⟨Outcome.err (CloudwatchError.CreateStream e), none,
                [RemoteCall.describe dreq, RemoteCall.create c.create_log_stream]⟩
          | Except.ok _ =>
            match env.putResult with
            | Except.error e =>
                ⟨Outcome.err (CloudwatchError.Put e), none,
                  [RemoteCall.describe dreq, RemoteCall.create c.create_log_stream,
                   RemoteCall.put (c.put_logs none ev)]⟩
            | Except.ok res =>
              if env.sinkConnected then
                ⟨Outcome.ok, some res.next_sequence_token,
                  [RemoteCall.describe dreq, RemoteCall.create c.create_log_stream,
                   RemoteCall.put (c.put_logs none ev)]⟩
              else
                ⟨Outcome.panic "called `Result::unwrap()` on an `Err` value", none,
                  [RemoteCall.describe dreq, RemoteCall.create c.create_log_stream,
                   RemoteCall.put (c.put_logs none ev)]⟩
        | some (stream :: _) =>
          match env.putResult with
          | Except.error e =>
              ⟨Outcome.err (CloudwatchError.Put e), none,
                [RemoteCall.describe dreq,
                 RemoteCall.put (c.put_logs stream.upload_sequence_token ev)]⟩
          | Except.ok res =>
            if env.sinkConnected then
              ⟨Outcome.ok, some res.next_sequence_token,
                [RemoteCall.describe dreq,
                 RemoteCall.put (c.put_logs stream.upload_sequence_token ev)]⟩
            else
              ⟨Outcome.panic "called `Result::unwrap()` on an `Err` value", none,
                [RemoteCall.describe dreq,
                 RemoteCall.put (c.put_logs stream.upload_sequence_token ev)]⟩ := by
  rcases hd : env.describeResult with e | resp
  · rw [CloudwatchFuture.run, poll_describe_err _ env dreq rfl e hd]
    simp [stateCall]
  · obtain ⟨ls⟩ := resp
    cases ls with
    | none =>
        rw [CloudwatchFuture.run, poll_describe_no_list _ env dreq rfl ⟨none⟩ hd rfl]
        simp [stateCall]
    | some l =>
      cases l with
      | nil =>
          rw [CloudwatchFuture.run,
            poll_describe_empty_step _ env dreq rfl ⟨some []⟩ hd rfl]
          rcases hc : env.createResult with e | a
          · rw [poll_create_err _ env _ rfl e hc]
            simp [stateCall, hc]
          · rw [poll_create_step _ env _ rfl hc _
              (transition_to_put_some _ ev rfl none)]
            rcases hp : env.putResult with e | res
            · rw [poll_put_err _ env _ rfl e hp]
              simp [stateCall, hc, hp]
            · cases hsink : env.sinkConnected
              · rw [poll_put_disconnected _ env _ rfl res hp rfl hsink]
                simp [stateCall, hc, hp, hsink]
              · rw [poll_put_ok _ env _ rfl res hp rfl hsink]
                simp [stateCall, hc, hp, hsink]
      | cons stream tl =>
          rw [CloudwatchFuture.run,
            poll_describe_found_step _ env dreq rfl ⟨some (stream :: tl)⟩ hd
              stream tl rfl _
              (transition_to_put_some _ ev rfl stream.upload_sequence_token)]
          rcases hp : env.putResult with e | res
          · rw [poll_put_err _ env _ rfl e hp]
            simp [stateCall, hp]
          · cases hsink : env.sinkConnected
            · rw [poll_put_disconnected _ env _ rfl res hp rfl hsink]
              simp [stateCall, hp, hsink]
            · rw [poll_put_ok _ env _ rfl res hp rfl hsink]
              simp [stateCall, hp, hsink]

end Cloudwatch

namespace Cloudwatch

/-- Helper: the future built by `new` without a token, in constructor form. -/
theorem new_none_eq (sn gn : String) (ev : List InputLogEvent) :
    CloudwatchFuture.new sn gn ev none =
      CloudwatchFuture.mk ⟨sn, gn⟩ (State.DescribeStream ⟨some 1, gn, some sn⟩)
        (some ev) (some ()) := rfl

/-- Helper: the future built by `new` with a token, in constructor form. -/
theorem new_some_eq (sn gn : String) (ev : List InputLogEvent) (t : String) :
    CloudwatchFuture.new sn gn ev (some t) =
      CloudwatchFuture.mk ⟨sn, gn⟩ (State.Put ⟨ev, some t, gn, sn⟩)
        none (some ()) := rfl

/-- C1: cold start with an existing stream — constructed without a token the
machine starts in the describe (Discovering) state; when describe reports at
least one stream it appends the retained batch with that stream's last-known
upload sequence token, and on append success it delivers the append
response's next token through the one-shot sink and terminates with success. -/
theorem cold_start_stream_exists
    (sn gn : String) (ev : List InputLogEvent) (stream : LogStream)
    (tail : List LogStream) (t2 : Option String) (env : Env)
    (hd : env.describeResult = Except.ok ⟨some (stream :: tail)⟩)
    (hp : env.putResult = Except.ok ⟨t2⟩)
    (hsink : env.sinkConnected = true) :
    (CloudwatchFuture.new sn gn ev none).state =
      State.DescribeStream ⟨some 1, gn, some sn⟩ ∧
    (CloudwatchFuture.new sn gn ev none).run env =
      ⟨Outcome.ok, some t2,
        [RemoteCall.describe ⟨some 1, gn, some sn⟩,
         RemoteCall.put ⟨ev, stream.upload_sequence_token, gn, sn⟩]⟩ := by
  refine ⟨rfl, ?_⟩
  rw [new_none_eq, run_describe_eq]
  simp [hd, hp, hsink, Client.put_logs]

/-- Witness for C1 at concrete inputs. -/
theorem cold_start_stream_exists_witness :
    (CloudwatchFuture.new "s" "g" [⟨1, "m"⟩] none).state =
      State.DescribeStream ⟨some 1, "g", some "s"⟩ ∧
    (CloudwatchFuture.new "s" "g" [⟨1, "m"⟩] none).run
      ⟨Except.ok ⟨some [⟨some "s", some "T1"⟩]⟩, Except.ok (),
        Except.ok ⟨some "T2"⟩, true⟩ =
      ⟨Outcome.ok, some (some "T2"),
        [RemoteCall.describe ⟨some 1, "g", some "s"⟩,
         RemoteCall.put ⟨[⟨1, "m"⟩], some "T1", "g", "s"⟩]⟩ :=
  cold_start_stream_exists "s" "g" [⟨1, "m"⟩] ⟨some "s", some "T1"⟩ []
    (some "T2") _ rfl rfl rfl

/-- C2: fast path — constructed with a token, the machine begins directly
in the `Put` (Appending) state carrying that token and the full batch, and
for every environment the only remote call of the run is that append. -/
theorem fast_path (sn gn : String) (ev : List InputLogEvent) (t : String)
    (env : Env) :
    (CloudwatchFuture.new sn gn ev (some t)).state =
      State.Put ⟨ev, some t, gn, sn⟩ ∧
    ((CloudwatchFuture.new sn gn ev (some t)).run env).issued =
      [RemoteCall.put ⟨ev, some t, gn, sn⟩] := by
  refine ⟨rfl, ?_⟩
  rw [new_some_eq, run_put_eq]
  rcases hp : env.putResult with e | res
  · simp [hp]
  · cases hsink : env.sinkConnected <;> simp [hp, hsink]

/-- C3: cold start with a missing stream — with no token and a present but
empty stream list, the run issues describe, then create, then the append,
and the append after a successful create carries an absent token (`none`),
which is distinct from a present empty-string token. -/
theorem cold_start_stream_missing
    (sn gn : String) (ev : List InputLogEvent) (env : Env)
    (hd : env.describeResult = Except.ok ⟨some []⟩)
    (hc : env.createResult = Except.ok ()) :
    ((CloudwatchFuture.new sn gn ev none).run env).issued =
      [RemoteCall.describe ⟨some 1, gn, some sn⟩,
       RemoteCall.create ⟨gn, sn⟩,
       RemoteCall.put ⟨ev, none, gn, sn⟩] ∧
    (⟨ev, none, gn, sn⟩ : PutLogEventsRequest).sequence_token ≠ some "" := by
  refine ⟨?_, by simp⟩
  rw [new_none_eq, run_describe_eq]
  rcases hp : env.putResult with e | res
  · simp [hd, hc, hp, Client.put_logs, Client.create_log_stream]
  · cases hsink : env.sinkConnected <;>
      simp [hd, hc, hp, hsink, Client.put_logs, Client.create_log_stream]

/-- Witness for C3 at concrete inputs. -/
theorem cold_start_stream_missing_witness :
    ((CloudwatchFuture.new "s" "g" [⟨1, "m"⟩] none).run
      ⟨Except.ok ⟨some []⟩, Except.ok (), Except.ok ⟨some "T2"⟩, true⟩).issued =
      [RemoteCall.describe ⟨some 1, "g", some "s"⟩,
       RemoteCall.create ⟨"g", "s"⟩,
       RemoteCall.put ⟨[⟨1, "m"⟩], none, "g", "s"⟩] ∧
    (⟨[⟨1, "m"⟩], none, "g", "s"⟩ : PutLogEventsRequest).sequence_token ≠ some "" :=
  cold_start_stream_missing "s" "g" [⟨1, "m"⟩] _ rfl rfl

end Cloudwatch

namespace Cloudwatch

/-- C4: failure propagation — a failing describe, create or append call
immediately terminates the run with the corresponding classified error
(`Describe`, `CreateStream`, `Put`) and no further remote call is issued;
and across all futures the token hand-off is never signaled on a run
ending in an error. -/
theorem failure_propagation :
    (∀ (sn gn : String) (ev : List InputLogEvent) (env : Env) (e : String),
        env.describeResult = Except.error e →
        (CloudwatchFuture.new sn gn ev none).run env =
          ⟨Outcome.err (CloudwatchError.Describe e), none,
            [RemoteCall.describe ⟨some 1, gn, some sn⟩]⟩) ∧
    (∀ (sn gn : String) (ev : List InputLogEvent) (env : Env) (e : String),
        env.describeResult = Except.ok ⟨some []⟩ →
        env.createResult = Except.error e →
        (CloudwatchFuture.new sn gn ev none).run env =
          ⟨Outcome.err (CloudwatchError.CreateStream e), none,
            [RemoteCall.describe ⟨some 1, gn, some sn⟩,
             RemoteCall.create ⟨gn, sn⟩]⟩) ∧
    (∀ (sn gn : String) (ev : List InputLogEvent) (stream : LogStream)
        (tail : List LogStream) (env : Env) (e : String),
        env.describeResult = Except.ok ⟨some (stream :: tail)⟩ →
        env.putResult = Except.error e →
        (CloudwatchFuture.new sn gn ev none).run env =
          ⟨Outcome.err (CloudwatchError.Put e), none,
            [RemoteCall.describe ⟨some 1, gn, some sn⟩,
             RemoteCall.put ⟨ev, stream.upload_sequence_token, gn, sn⟩]⟩) ∧
    (∀ (sn gn : String) (ev : List InputLogEvent) (t : String) (env : Env)
        (e : String),
        env.putResult = Except.error e →
        (CloudwatchFuture.new sn gn ev (some t)).run env =
          ⟨Outcome.err (CloudwatchError.Put e), none,
            [RemoteCall.put ⟨ev, some t, gn, sn⟩]⟩) ∧
    (∀ (f : CloudwatchFuture) (env : Env) (e : CloudwatchError),
        (f.poll env).outcome = Outcome.err e → (f.poll env).sent = none) := by
  refine ⟨?_, ?_, ?_, ?_, ?_⟩
  · intro sn gn ev env e hd
    rw [new_none_eq, run_describe_eq]
    simp [hd]
  · intro sn gn ev env e hd hc
    rw [new_none_eq, run_describe_eq]
    simp [hd, hc, Client.create_log_stream]
  · intro sn gn ev stream tail env e hd hp
    rw [new_none_eq, run_describe_eq]
    simp [hd, hp, Client.put_logs]
  · intro sn gn ev t env e hp
    rw [new_some_eq, run_put_eq]
    simp [hp]
  · intro f env e h
    by_contra hne
    have hok := (poll_sent_iff_ok f env).mp hne
    rw [h] at hok
    exact absurd hok (by simp)

/-- Witness for C4 at concrete inputs. -/
theorem failure_propagation_witness :
    (CloudwatchFuture.new "s" "g" [] none).run
      ⟨Except.error "boom", Except.ok (), Except.ok ⟨none⟩, true⟩ =
      ⟨Outcome.err (CloudwatchError.Describe "boom"), none,
        [RemoteCall.describe ⟨some 1, "g", some "s"⟩]⟩ :=
  failure_propagation.1 "s" "g" [] _ "boom" rfl

/-- C5: anomalous describe response — a successful describe whose
stream-list field is absent (`none`) terminates with the protocol-anomaly
error `NoStreamsFound` and issues no further remote calls, whereas a
present-but-empty list goes on to issue the create call. -/
theorem anomalous_describe_response :
    (∀ (sn gn : String) (ev : List InputLogEvent) (env : Env),
        env.describeResult = Except.ok ⟨none⟩ →
        (CloudwatchFuture.new sn gn ev none).run env =
          ⟨Outcome.err CloudwatchError.NoStreamsFound, none,
            [RemoteCall.describe ⟨some 1, gn, some sn⟩]⟩) ∧
    (∀ (sn gn : String) (ev : List InputLogEvent) (env : Env),
        env.describeResult = Except.ok ⟨some []⟩ →
        ∃ tail, ((CloudwatchFuture.new sn gn ev none).run env).issued =
          RemoteCall.describe ⟨some 1, gn, some sn⟩ ::
            RemoteCall.create ⟨gn, sn⟩ :: tail) := by
  constructor
  · intro sn gn ev env hd
    rw [new_none_eq, run_describe_eq]
    simp [hd]
  · intro sn gn ev env hd
    rw [new_none_eq, run_describe_eq]
    rcases hc : env.createResult with e | a
    · exact ⟨[], by simp [hd, hc, Client.create_log_stream]⟩
    · refine ⟨[RemoteCall.put ⟨ev, none, gn, sn⟩], ?_⟩
      rcases hp : env.putResult with e | res
      · simp [hd, hc, hp, Client.create_log_stream, Client.put_logs]
      · cases hsink : env.sinkConnected <;>
          simp [hd, hc, hp, hsink, Client.create_log_stream, Client.put_logs]

/-- Witness for C5 at concrete inputs. -/
theorem anomalous_describe_response_witness :
    (CloudwatchFuture.new "s" "g" [] none).run
      ⟨Except.ok ⟨none⟩, Except.ok (), Except.ok ⟨none⟩, true⟩ =
      ⟨Outcome.err CloudwatchError.NoStreamsFound, none,
        [RemoteCall.describe ⟨some 1, "g", some "s"⟩]⟩ :=
  anomalous_describe_response.1 "s" "g" [] _ rfl

/-- C6: exactly-once sink signaling — for every run built by `new`, a value
goes through the one-shot hand-off exactly when the run ends in terminal
success; and polling a `Put` success with the sender already taken is the
fatal `expect` abort, not a recoverable error. -/
theorem sink_signaled_exactly_once :
    (∀ (sn gn : String) (ev : List InputLogEvent) (tok : Option String)
        (env : Env),
        ((CloudwatchFuture.new sn gn ev tok).run env).sent ≠ none ↔
          ((CloudwatchFuture.new sn gn ev tok).run env).outcome = Outcome.ok) ∧
    (∀ (f : CloudwatchFuture) (env : Env) (fut : PutLogEventsRequest)
        (res : PutLogEventsResponse),
        f.state = State.Put fut → f.token_tx = none →
        env.putResult = Except.ok res →
        f.poll env =
          ⟨Outcome.panic "Put returned twice, this is a bug!", none, []⟩) := by
  constructor
  · intro sn gn ev tok env
    have h1 : ((CloudwatchFuture.new sn gn ev tok).run env).sent =
        ((CloudwatchFuture.new sn gn ev tok).poll env).sent := rfl
    have h2 : ((CloudwatchFuture.new sn gn ev tok).run env).outcome =
        ((CloudwatchFuture.new sn gn ev tok).poll env).outcome := rfl
    rw [h1, h2]
    exact poll_sent_iff_ok _ env
  · intro f env fut res hs htx hp
    exact poll_put_taken_panic f env fut hs res hp htx

/-- Witness for C6 at concrete inputs. -/
theorem sink_signaled_exactly_once_witness :
    (CloudwatchFuture.mk ⟨"s", "g"⟩ (State.Put ⟨[], none, "g", "s"⟩)
        none none).poll
      ⟨Except.ok ⟨none⟩, Except.ok (), Except.ok ⟨some "T"⟩, true⟩ =
      ⟨Outcome.panic "Put returned twice, this is a bug!", none, []⟩ :=
  sink_signaled_exactly_once.2 _ _ ⟨[], none, "g", "s"⟩ ⟨some "T"⟩ rfl rfl rfl

end Cloudwatch

namespace Cloudwatch

/-- C7: single consumption of the batch — every successful run issues
exactly one append call and that call carries the original event batch;
and taking the batch when the slot is already empty is the fatal `expect`
abort of `transition_to_put`. -/
theorem single_batch_consumption :
    (∀ (sn gn : String) (ev : List InputLogEvent) (tok : Option String)
        (env : Env),
        ((CloudwatchFuture.new sn gn ev tok).run env).outcome = Outcome.ok →
        countPut ((CloudwatchFuture.new sn gn ev tok).run env).issued = 1 ∧
        ∀ r, RemoteCall.put r ∈
            ((CloudwatchFuture.new sn gn ev tok).run env).issued →
          r.log_events = ev) ∧
    (∀ (f : CloudwatchFuture) (token : Option String),
        f.events = none →
        f.transition_to_put token =
          Except.error "Put got called twice, this is a bug!") := by
  constructor
  · intro sn gn ev tok env hok
    cases tok with
    | some t =>
        have hiss : ((CloudwatchFuture.new sn gn ev (some t)).run env).issued =
            [RemoteCall.put ⟨ev, some t, gn, sn⟩] := by
          rw [new_some_eq, run_put_eq]
          rcases hp : env.putResult with e | res
          · simp [hp]
          · cases hsink : env.sinkConnected <;> simp [hp, hsink]
        rw [hiss]
        refine ⟨by simp [countPut, List.countP_cons, List.countP_nil], ?_⟩
        intro r hr
        simp at hr
        subst hr
        rfl
    | none =>
        rw [new_none_eq, run_describe_eq] at hok ⊢
        rcases hd : env.describeResult with e | resp
        · simp [hd] at hok
        · obtain ⟨ls⟩ := resp
          cases ls with
          | none => simp [hd] at hok
          | some l =>
            cases l with
            | nil =>
                rcases hc : env.createResult with e | a
                · simp [hd, hc] at hok
                · rcases hp : env.putResult with e | res
                  · simp [hd, hc, hp] at hok
                  · cases hsink : env.sinkConnected
                    · simp [hd, hc, hp, hsink] at hok
                    · simp only [hd, hc, hp, hsink]
                      refine ⟨by simp [countPut, List.countP_cons,
                        List.countP_nil], ?_⟩
                      intro r hr
                      simp [Client.put_logs, Client.create_log_stream] at hr
                      subst hr
                      rfl
            | cons stream tl =>
                rcases hp : env.putResult with e | res
                · simp only [hd, hp]
                  refine ⟨by simp [countPut, List.countP_cons,
                    List.countP_nil], ?_⟩
                  intro r hr
                  simp [Client.put_logs] at hr
                  subst hr
                  rfl
                · cases hsink : env.sinkConnected
                  · simp [hd, hp, hsink] at hok
                  · simp only [hd, hp, hsink]
                    refine ⟨by simp [countPut, List.countP_cons,
                      List.countP_nil], ?_⟩
                    intro r hr
                    simp [Client.put_logs] at hr
                    subst hr
                    rfl
  · intro f token he
    exact transition_to_put_twice f he token

/-- Witness for C7 at concrete inputs. -/
theorem single_batch_consumption_witness :
    countPut (((CloudwatchFuture.new "s" "g" [⟨1, "m"⟩] (some "T0")).run
        ⟨Except.ok ⟨none⟩, Except.ok (), Except.ok ⟨some "T1"⟩, true⟩).issued)
      = 1 ∧
    ∀ r, RemoteCall.put r ∈
        (((CloudwatchFuture.new "s" "g" [⟨1, "m"⟩] (some "T0")).run
          ⟨Except.ok ⟨none⟩, Except.ok (), Except.ok ⟨some "T1"⟩, true⟩).issued) →
      r.log_events = [⟨1, "m"⟩] :=
  single_batch_consumption.1 "s" "g" [⟨1, "m"⟩] (some "T0") _
    (by rw [new_some_eq, run_put_eq]; rfl)

/-- C8: describe request shape — the describe operation always requests at
most one stream (`limit = some 1`), filters by the exact stream name as a
name prefix, and targets the configured group; a cold-start run issues
exactly one describe call and a token-supplied run issues none. -/
theorem describe_request_shape :
    (∀ c : Client, c.describe_stream =
        { limit := some 1, log_group_name := c.group_name,
          log_stream_name_prefix := some c.stream_name }) ∧
    (∀ (sn gn : String) (ev : List InputLogEvent) (env : Env),
        countDescribe ((CloudwatchFuture.new sn gn ev none).run env).issued = 1) ∧
    (∀ (sn gn : String) (ev : List InputLogEvent) (t : String) (env : Env),
        countDescribe
          ((CloudwatchFuture.new sn gn ev (some t)).run env).issued = 0) := by
  refine ⟨fun c => rfl, ?_, ?_⟩
  · intro sn gn ev env
    rw [new_none_eq, run_describe_eq]
    rcases hd : env.describeResult with e | resp
    · simp [hd, countDescribe, List.countP_cons, List.countP_nil]
    · obtain ⟨ls⟩ := resp
      cases ls with
      | none => simp [hd, countDescribe, List.countP_cons, List.countP_nil]
      | some l =>
        cases l with
        | nil =>
            rcases hc : env.createResult with e | a
            · simp [hd, hc, countDescribe, List.countP_cons, List.countP_nil]
            · rcases hp : env.putResult with e | res
              · simp [hd, hc, hp, countDescribe, List.countP_cons,
                  List.countP_nil]
              · cases hsink : env.sinkConnected <;>
                  simp [hd, hc, hp, hsink, countDescribe, List.countP_cons,
                    List.countP_nil]
        | cons stream tl =>
            rcases hp : env.putResult with e | res
            · simp [hd, hp, countDescribe, List.countP_cons, List.countP_nil]
            · cases hsink : env.sinkConnected <;>
                simp [hd, hp, hsink, countDescribe, List.countP_cons,
                  List.countP_nil]
  · intro sn gn ev t env
    rw [new_some_eq, run_put_eq]
    rcases hp : env.putResult with e | res
    · simp [hp, countDescribe, List.countP_cons, List.countP_nil]
    · cases hsink : env.sinkConnected <;>
        simp [hp, hsink, countDescribe, List.countP_cons, List.countP_nil]

/-- C9: no name comparison after discovery — when the first listed stream
names a different (merely prefix-matching) stream, its upload sequence
token is still used for the append, while the append request itself
targets the exact configured stream name. -/
theorem first_stream_token_used_without_name_check
    (sn gn : String) (ev : List InputLogEvent) (name : Option String)
    (tok : Option String) (tail : List LogStream) (env : Env)
    (hname : name ≠ some sn)
    (hd : env.describeResult = Except.ok ⟨some (⟨name, tok⟩ :: tail)⟩) :
    ((CloudwatchFuture.new sn gn ev none).run env).issued =
      [RemoteCall.describe ⟨some 1, gn, some sn⟩,
       RemoteCall.put ⟨ev, tok, gn, sn⟩] := by
  rw [new_none_eq, run_describe_eq]
  rcases hp : env.putResult with e | res
  · simp [hd, hp, Client.put_logs]
  · cases hsink : env.sinkConnected <;> simp [hd, hp, hsink, Client.put_logs]

/-- Witness for C9 at concrete inputs. -/
theorem first_stream_token_used_without_name_check_witness :
    ((CloudwatchFuture.new "s" "g" [⟨1, "m"⟩] none).run
      ⟨Except.ok ⟨some [⟨some "s-other", some "T1"⟩]⟩, Except.ok (),
        Except.ok ⟨some "T2"⟩, true⟩).issued =
      [RemoteCall.describe ⟨some 1, "g", some "s"⟩,
       RemoteCall.put ⟨[⟨1, "m"⟩], some "T1", "g", "s"⟩] :=
  first_stream_token_used_without_name_check "s" "g" [⟨1, "m"⟩]
    (some "s-other") (some "T1") [] _ (by simp) rfl

/-- C10: disconnected hand-off sink — if the append succeeds while the
receiving end of the one-shot channel has been dropped, the final poll is
the `send(..).unwrap()` abort, not a success and not a classified error. -/
theorem disconnected_sink_aborts :
    (∀ (f : CloudwatchFuture) (env : Env) (fut : PutLogEventsRequest)
        (res : PutLogEventsResponse),
        f.state = State.Put fut → f.token_tx = some () →
        env.putResult = Except.ok res → env.sinkConnected = false →
        f.poll env =
          ⟨Outcome.panic "called `Result::unwrap()` on an `Err` value",
            none, []⟩) ∧
    (∀ (sn gn : String) (ev : List InputLogEvent) (t : String) (env : Env)
        (res : PutLogEventsResponse),
        env.putResult = Except.ok res → env.sinkConnected = false →
        ((CloudwatchFuture.new sn gn ev (some t)).run env).outcome =
          Outcome.panic "called `Result::unwrap()` on an `Err` value") := by
  constructor
  · intro f env fut res hs htx hp hsink
    exact poll_put_disconnected f env fut hs res hp htx hsink
  · intro sn gn ev t env res hp hsink
    rw [new_some_eq, run_put_eq]
    simp [hp, hsink]

/-- Witness for C10 at concrete inputs. -/
theorem disconnected_sink_aborts_witness :
    ((CloudwatchFuture.new "s" "g" [⟨1, "m"⟩] (some "T0")).run
      ⟨Except.ok ⟨none⟩, Except.ok (), Except.ok ⟨some "T1"⟩, false⟩).outcome =
      Outcome.panic "called `Result::unwrap()` on an `Err` value" :=
  disconnected_sink_aborts.2 "s" "g" [⟨1, "m"⟩] "T0" _ ⟨some "T1"⟩ rfl rfl

end Cloudwatch
